import Mathlib

/-!
Verification of the fetch-and-cache pipeline of
`skdaccess/planetary/ode/cache/data_fetcher_mini.py` (class `DataFetcherMini`).

The embedding models:
* Python `OrderedDict` as an association list `List (String × β)` with
  insertion-order semantics (`odGet`, `odInsert`): assigning to an existing
  key updates the value in place (keeping the key's position), assigning to
  a fresh key appends it at the end.
* the resolver's result `file_urls` as an ordered list of `ResolvedEntry`
  (resource key, product id, sub-product description, remote url); the
  Python code looks values up by key with `file_urls.get(key)`.
* `mpimg.imread` as an external decoder `decode : String → Except String α`
  (an exception raised by the decoder propagates out of `output`).
* the method `DataFetcherMini.output`'s assembly loop
  `for file, key in zip(downloaded_files, file_urls.keys())` as `outputLoop`
  over `List.zip downloaded_files (file_urls.map ResolvedEntry.key)`.
* the constructor's `assert` statements as an `Except`-valued smart
  constructor `mkDataFetcherMini`; longitude/latitude values are rationals
  (the Python comparisons on floats are exact order comparisons).
-/

/-- One entry of the ordered mapping returned by the resource resolver
(`query_files_urls`): resource key, product identifier, sub-product
description and remote location. -/
structure ResolvedEntry where
  key : String
  product : String
  description : String
  url : String
deriving DecidableEq

deriving instance DecidableEq for Except

/-- The two-level grouped result: ordered map from product id to an ordered
map from description to decoded image. -/
abbrev GroupedResult (α : Type) := List (String × List (String × α))

/-- The wrapper returned by `output` (`ImageWrapper(obj_wrap=data_dict)`). -/
structure ImageWrapper (α : Type) where
  obj_wrap : GroupedResult α
deriving DecidableEq

/-- Lookup in an ordered mapping: Python `d.get(k)` (first, and for a dict
unique, entry with this key). -/
def odGet {β : Type} : List (String × β) → String → Option β
  | [], _ => none
  | (k', v) :: rest, k => if k' = k then some v else odGet rest k

/-- Assignment in an ordered mapping: Python `d[k] = v`. An existing key
keeps its position and gets the new value; a new key is appended. -/
def odInsert {β : Type} : List (String × β) → String → β → List (String × β)
  | [], k, v => [(k, v)]
  | (k', v') :: rest, k, v =>
    if k' = k then (k, v) :: rest else (k', v') :: odInsert rest k v

/-- `file_urls.get(key)`: first resolved entry with the given resource key. -/
def urlsGet : List ResolvedEntry → String → Option ResolvedEntry
  | [], _ => none
  | e :: rest, k => if e.key = k then some e else urlsGet rest k

/-- Python `s.endswith(t)`: `t` is a suffix of `s` (exact, case-sensitive
character comparison). -/
def strEndsWith (s t : String) : Bool :=
  t.data.isSuffixOf s.data

/-- The file-type gate of the assembly loop:
`file.endswith('.jpg') or file.endswith('.png')`. -/
def isDecodableImage (file : String) : Bool :=
  strEndsWith file ".jpg" || strEndsWith file ".png"

/-- One insertion into the grouped result:
`if data_dict.get(product, None) is None: data_dict[product] = OrderedDict()`
followed by `data_dict[product][file_description] = image`. -/
def insertImage {α : Type} (data_dict : GroupedResult α)
    (product file_description : String) (image : α) : GroupedResult α :=
  let inner := (odGet data_dict product).getD []
  odInsert data_dict product (odInsert inner file_description image)

/-- The assembly loop of `DataFetcherMini.output`, walking the zipped
(file, key) pairs and building `data_dict`. A failing decode raises, which
propagates as `Except.error`; a key missing from `file_urls` would be the
Python `TypeError` of subscripting `None`. -/
def outputLoop {α : Type} (decode : String → Except String α)
    (file_urls : List ResolvedEntry) :
    List (String × String) → GroupedResult α → Except String (GroupedResult α)
  | [], data_dict => .ok data_dict
  | (file, key) :: rest, data_dict =>
    if isDecodableImage file then
      match urlsGet file_urls key with
      | none => .error "TypeError: NoneType is not subscriptable"
      | some entry =>
        match decode file with
        | .error e => .error e
        | .ok image =>
          outputLoop decode file_urls rest
            (insertImage data_dict entry.product entry.description image)
    else
      outputLoop decode file_urls rest data_dict

/-- `DataFetcherMini.output`, with the two external collaborators abstracted:
`file_urls` is the resolver's ordered mapping and `downloaded_files` the
cache's returned local paths; `decode` is `mpimg.imread`. -/
def output {α : Type} (decode : String → Except String α)
    (file_urls : List ResolvedEntry) (downloaded_files : List String) :
    Except String (ImageWrapper α) :=
  match outputLoop decode file_urls
      (List.zip downloaded_files (file_urls.map ResolvedEntry.key)) [] with
  | .error e => .error e
  | .ok data_dict => .ok ⟨data_dict⟩

/-- The fields stored by `DataFetcherMini.__init__`. -/
structure DataFetcherMini where
  target : String
  mission : String
  instrument : String
  product_type : String
  western_lon : Option ℚ
  eastern_lon : Option ℚ
  min_lat : Option ℚ
  max_lat : Option ℚ
  min_ob_time : String
  max_ob_time : String
  product_id : String
  file_name : String
  number_product_limit : Int
  result_offset_number : Int
  remove_ndv : Bool
  limit_file_types : String
deriving DecidableEq

/-- `western_lon is None or 0. <= western_lon <= 360.` -/
def lonInRange : Option ℚ → Bool
  | none => true
  | some v => decide ((0 : ℚ) ≤ v) && decide (v ≤ (360 : ℚ))

/-- `min_lat is None or -90. <= min_lat <= 90.` -/
def latInRange : Option ℚ → Bool
  | none => true
  | some v => decide ((-90 : ℚ) ≤ v) && decide (v ≤ (90 : ℚ))

/-- `DataFetcherMini.__init__`: the four `assert` statements on the
longitude/latitude bounds, the `assert` on the product limit, then the field
assignments (note: `result_offset_number` is never checked). -/
def mkDataFetcherMini (target mission instrument product_type : String)
    (western_lon eastern_lon min_lat max_lat : Option ℚ)
    (min_ob_time max_ob_time product_id file_name : String)
    (number_product_limit result_offset_number : Int)
    (remove_ndv : Bool) : Except String DataFetcherMini :=
  if !lonInRange western_lon then
    .error "Western longitude is not between 0 and 360 degrees"
  else if !lonInRange eastern_lon then
    .error "Eastern longitude is not between 0 and 360 degrees"
  else if !latInRange min_lat then
    .error "Minimal latitude is not between -90 and 90 degrees"
  else if !latInRange max_lat then
    .error "Maximal latitude is not between -90 and 90 degrees"
  else if !(decide ((1 : Int) ≤ number_product_limit) &&
      decide (number_product_limit ≤ (100 : Int))) then
    .error "Number of product limit must be between 1 and 100"
  else
    .ok { target := target, mission := mission, instrument := instrument,
          product_type := product_type, western_lon := western_lon,
          eastern_lon := eastern_lon, min_lat := min_lat, max_lat := max_lat,
          min_ob_time := min_ob_time, max_ob_time := max_ob_time,
          product_id := product_id, file_name := file_name,
          number_product_limit := number_product_limit,
          result_offset_number := result_offset_number,
          remove_ndv := remove_ndv, limit_file_types := "Browse" }

/-- Default value of `western_lon` in the signature of `__init__`. -/
def default_western_lon : Option ℚ := none

/-- Default value of `eastern_lon` in the signature of `__init__`. -/
def default_eastern_lon : Option ℚ := none

/-- Default value of `min_lat` in the signature of `__init__`. -/
def default_min_lat : Option ℚ := none

/-- Default value of `max_lat` in the signature of `__init__`. -/
def default_max_lat : Option ℚ := none

/-- Default value of `min_ob_time` in the signature of `__init__`. -/
def default_min_ob_time : String := ""

/-- Default value of `max_ob_time` in the signature of `__init__`. -/
def default_max_ob_time : String := ""

/-- Default value of `product_id` in the signature of `__init__`. -/
def default_product_id : String := ""

/-- Default value of `file_name` in the signature of `__init__`. -/
def default_file_name : String := "*"

/-- Default value of `number_product_limit` in the signature of `__init__`. -/
def default_number_product_limit : Int := 10

/-- Default value of `result_offset_number` in the signature of `__init__`. -/
def default_result_offset_number : Int := 0

/-- Default value of `remove_ndv` in the signature of `__init__`. -/
def default_remove_ndv : Bool := true

/-- Construction with every optional parameter left at its default. -/
def mkDataFetcherMiniDefaults
    (target mission instrument product_type : String) :
    Except String DataFetcherMini :=
  mkDataFetcherMini target mission instrument product_type
    default_western_lon default_eastern_lon default_min_lat default_max_lat
    default_min_ob_time default_max_ob_time default_product_id
    default_file_name default_number_product_limit
    default_result_offset_number default_remove_ndv

/-- Whether construction succeeded. -/
def exceptIsOk {ε α : Type} : Except ε α → Bool
  | .ok _ => true
  | .error _ => false

/-- First-seen order: fold a key sequence, appending each key the first time
it appears. -/
def addFirst (acc : List String) (k : String) : List String :=
  if k ∈ acc then acc else acc ++ [k]

/-- The deduplicated first-seen key sequence of a list of keys. -/
def firstSeen (l : List String) : List String :=
  l.foldl addFirst []

/-! ### Basic lemmas about the ordered-mapping operations -/

theorem odGet_odInsert {β : Type} (m : List (String × β)) (k k' : String)
    (v : β) :
    odGet (odInsert m k v) k' = if k = k' then some v else odGet m k' := by
  induction m with
  | nil => simp [odInsert, odGet]
  | cons hd tl ih =>
    obtain ⟨k₀, v₀⟩ := hd
    by_cases h : k₀ = k
    · subst h
      simp only [odInsert, if_pos rfl, odGet]
      by_cases h' : k₀ = k' <;> simp [h']
    · simp only [odInsert, if_neg h, odGet, ih]
      by_cases h' : k₀ = k'
      · subst h'
        have hne : ¬k = k₀ := fun hh => h hh.symm
        simp [hne]
      · simp [h']

theorem odGet_eq_none_iff {β : Type} (m : List (String × β)) (k : String) :
    odGet m k = none ↔ k ∉ m.map Prod.fst := by
  induction m with
  | nil => simp [odGet]
  | cons hd tl ih =>
    obtain ⟨k₀, v₀⟩ := hd
    by_cases h : k₀ = k
    · subst h
      simp [odGet]
    · have hne : ¬k = k₀ := fun hh => h hh.symm
      simp [odGet, h, hne, ih]

theorem odInsert_keys {β : Type} (m : List (String × β)) (k : String)
    (v : β) :
    (odInsert m k v).map Prod.fst = addFirst (m.map Prod.fst) k := by
  induction m with
  | nil => simp [odInsert, addFirst]
  | cons hd tl ih =>
    obtain ⟨k₀, v₀⟩ := hd
    by_cases h : k₀ = k
    · subst h
      simp [odInsert, addFirst]
    · simp only [odInsert, if_neg h, List.map_cons, ih, addFirst]
      have hne : ¬k = k₀ := fun hh => h hh.symm
      by_cases h' : k ∈ tl.map Prod.fst <;>
        simp [List.mem_cons, h', hne]

theorem insertImage_keys {α : Type} (g : GroupedResult α) (p d : String)
    (i : α) :
    (insertImage g p d i).map Prod.fst = addFirst (g.map Prod.fst) p := by
  simp [insertImage, odInsert_keys]

theorem odGet_insertImage {α : Type} (g : GroupedResult α) (p d : String)
    (i : α) (q : String) :
    odGet (insertImage g p d i) q =
      if p = q then some (odInsert ((odGet g p).getD []) d i)
      else odGet g q := by
  simp [insertImage, odGet_odInsert]

/-! ### Lemmas about the range checks of the constructor -/

theorem lonInRange_iff (o : Option ℚ) :
    lonInRange o = true ↔ ∀ v, o = some v → 0 ≤ v ∧ v ≤ 360 := by
  cases o <;> simp [lonInRange]

theorem latInRange_iff (o : Option ℚ) :
    latInRange o = true ↔ ∀ v, o = some v → -90 ≤ v ∧ v ≤ 90 := by
  cases o <;> simp [latInRange]

/-! ### Claim theorems: constructor (C4, C5, C6) -/

/-- C4: construction succeeds iff every bound is within its stated range
(non-null western/eastern longitude in [0, 360], non-null min/max latitude
in [-90, 90], result limit in [1, 100]); any violation makes the pure
constructor fail with an error instead of producing an object. -/
theorem C4_construction_validation
    (target mission instrument product_type
      min_ob_time max_ob_time product_id file_name : String)
    (western_lon eastern_lon min_lat max_lat : Option ℚ)
    (number_product_limit result_offset_number : Int) (remove_ndv : Bool) :
    exceptIsOk (mkDataFetcherMini target mission instrument product_type
      western_lon eastern_lon min_lat max_lat min_ob_time max_ob_time
      product_id file_name number_product_limit result_offset_number
      remove_ndv) = true ↔
      ((∀ v, western_lon = some v → 0 ≤ v ∧ v ≤ 360) ∧
       (∀ v, eastern_lon = some v → 0 ≤ v ∧ v ≤ 360) ∧
       (∀ v, min_lat = some v → -90 ≤ v ∧ v ≤ 90) ∧
       (∀ v, max_lat = some v → -90 ≤ v ∧ v ≤ 90) ∧
       1 ≤ number_product_limit ∧ number_product_limit ≤ 100) := by
  rw [← lonInRange_iff, ← lonInRange_iff, ← latInRange_iff, ← latInRange_iff]
  unfold mkDataFetcherMini
  split_ifs with h1 h2 h3 h4 h5 <;> simp_all [exceptIsOk] <;> omega

/-- Witness for C4 at a fully concrete valid input. -/
theorem C4_construction_validation_witness :
    exceptIsOk (mkDataFetcherMini "Mars" "MRO" "HIRISE" "DTM"
      (some 10) (some 20) (some (-5)) (some 5) "" "" "" "*" 10 0
      true) = true :=
  (C4_construction_validation "Mars" "MRO" "HIRISE" "DTM" "" "" "" "*"
    (some 10) (some 20) (some (-5)) (some 5) 10 0 true).mpr
    ⟨by intro v hv; cases hv; constructor <;> norm_num,
     by intro v hv; cases hv; constructor <;> norm_num,
     by intro v hv; cases hv; constructor <;> norm_num,
     by intro v hv; cases hv; constructor <;> norm_num,
     by norm_num, by norm_num⟩

/-- C5 counterexample: construction with result offset -1 (and otherwise
valid arguments) succeeds, although the claim says it must fail. -/
theorem C5_offset_negative_cex :
    exceptIsOk (mkDataFetcherMini "Mars" "MRO" "HIRISE" "DTM"
      none none none none "" "" "" "*" 10 (-1) true) = true := by decide

/-- C5 (amended): the result offset is never range-checked by the
constructor: for every offset, even a negative one, construction succeeds
whenever the longitude/latitude bounds and the result limit are valid. -/
theorem C5_offset_unchecked
    (target mission instrument product_type
      min_ob_time max_ob_time product_id file_name : String)
    (western_lon eastern_lon min_lat max_lat : Option ℚ)
    (number_product_limit result_offset_number : Int) (remove_ndv : Bool)
    (hw : lonInRange western_lon = true)
    (he : lonInRange eastern_lon = true)
    (hmn : latInRange min_lat = true) (hmx : latInRange max_lat = true)
    (hlo : 1 ≤ number_product_limit) (hhi : number_product_limit ≤ 100)
    (hoff : result_offset_number < 0) :
    exceptIsOk (mkDataFetcherMini target mission instrument product_type
      western_lon eastern_lon min_lat max_lat min_ob_time max_ob_time
      product_id file_name number_product_limit result_offset_number
      remove_ndv) = true := by
  simp [mkDataFetcherMini, hw, he, hmn, hmx, hlo, hhi, exceptIsOk]

/-- Witness for C5 (amended) at offset -1. -/
theorem C5_offset_unchecked_witness :
    exceptIsOk (mkDataFetcherMini "Mars" "MRO" "HIRISE" "DTM"
      none none none none "" "" "" "*" 10 (-7) true) = true :=
  C5_offset_unchecked "Mars" "MRO" "HIRISE" "DTM" "" "" "" "*"
    none none none none 10 (-7) true rfl rfl rfl rfl
    (by norm_num) (by norm_num) (by norm_num)

/-- C6 counterexample: the default product-id pattern is the empty string,
not "*" as the claim states. -/
theorem C6_default_product_id_cex :
    (mkDataFetcherMiniDefaults "Mars" "MGS" "MOC" "DTM").toOption.map
        DataFetcherMini.product_id = some "" ∧ ("" : String) ≠ "*" :=
  ⟨rfl, by decide⟩

/-- C6 (amended): with every optional parameter left at its default,
construction succeeds and the object holds: product-id pattern "" (empty,
not "*"), file-name pattern "*", empty observation-time bounds, no spatial
bounds, result limit 10, result offset 0, no-data-value flag true, and the
fixed "Browse" resource-type filter. -/
theorem C6_defaults (target mission instrument product_type : String) :
    mkDataFetcherMiniDefaults target mission instrument product_type =
      .ok ⟨target, mission, instrument, product_type, none, none, none,
           none, "", "", "", "*", 10, 0, true, "Browse"⟩ := rfl

/-! ### Claim theorems: the assembly loop of `output` -/

/-- C9: with an empty resolved mapping and an empty local-path sequence,
`output` returns a wrapper carrying an empty grouped result and no error. -/
theorem C9_empty_resolver {α : Type} (decode : String → Except String α) :
    output decode [] [] = .ok ⟨[]⟩ := rfl

/-- C10: the file-type suffix test is an exact case-sensitive comparison:
paths ending in ".JPG", ".Png", ".PNG" or ".Jpg" fail the gate (while
".jpg" and ".png" pass), and an entry whose local path is "file.JPG" or
"file.Png" contributes nothing to the grouped result. -/
theorem C10_case_sensitive_suffix {α : Type}
    (decode : String → Except String α) (k p d u : String) :
    isDecodableImage "file.JPG" = false ∧
    isDecodableImage "file.Png" = false ∧
    isDecodableImage "file.PNG" = false ∧
    isDecodableImage "file.Jpg" = false ∧
    isDecodableImage "file.jpg" = true ∧
    isDecodableImage "file.png" = true ∧
    output decode [⟨k, p, d, u⟩] ["file.JPG"] = .ok ⟨[]⟩ ∧
    output decode [⟨k, p, d, u⟩] ["file.Png"] = .ok ⟨[]⟩ :=
  ⟨by decide, by decide, by decide, by decide, by decide, by decide,
   rfl, rfl⟩

/-- C7: a pair whose local path fails the decodable-image suffix test
(`.jpg`/`.png`) is skipped silently by the assembly loop, and in
particular resolved entries whose local paths end in ".lbl" or ".xml"
contribute no entry to the grouped result. -/
theorem C7_nonimage_skipped :
    (∀ (α : Type) (decode : String → Except String α)
       (file_urls : List ResolvedEntry) (file key : String)
       (rest : List (String × String)) (data_dict : GroupedResult α),
       isDecodableImage file = false →
       outputLoop decode file_urls ((file, key) :: rest) data_dict =
         outputLoop decode file_urls rest data_dict) ∧
    (∀ (α : Type) (decode : String → Except String α)
       (k1 k2 p1 d1 u1 p2 d2 u2 : String),
       output decode [⟨k1, p1, d1, u1⟩, ⟨k2, p2, d2, u2⟩]
         ["a.lbl", "b.xml"] = .ok ⟨[]⟩) := by
  constructor
  · intro α decode file_urls file key rest data_dict h
    simp [outputLoop, h]
  · intro α decode k1 k2 p1 d1 u1 p2 d2 u2
    rfl

/-- Witness for C7 at concrete inputs. -/
theorem C7_nonimage_skipped_witness :
    outputLoop (fun f => Except.ok f) [] [("a.lbl", "k")] [] =
        Except.ok [] ∧
    output (fun f => Except.ok f)
      [⟨"k1", "P1", "d1", "u1"⟩, ⟨"k2", "P2", "d2", "u2"⟩]
      ["a.lbl", "b.xml"] = .ok ⟨[]⟩ :=
  ⟨by rw [C7_nonimage_skipped.1 String (fun f => Except.ok f) [] "a.lbl"
      "k" [] [] (by decide)]; rfl,
   C7_nonimage_skipped.2 String (fun f => Except.ok f)
     "k1" "k2" "P1" "d1" "u1" "P2" "d2" "u2"⟩

/-- C8: two resolved entries (with distinct resource keys) sharing the same
(product, description) pair, both decodable: the grouped result holds
exactly the image of the later entry, and no error is raised. -/
theorem C8_last_write_wins {α : Type} (decode : String → Except String α)
    (k1 k2 p d u1 u2 f1 f2 : String) (i1 i2 : α)
    (hk : k1 ≠ k2)
    (h1 : isDecodableImage f1 = true) (h2 : isDecodableImage f2 = true)
    (hd1 : decode f1 = .ok i1) (hd2 : decode f2 = .ok i2) :
    output decode [⟨k1, p, d, u1⟩, ⟨k2, p, d, u2⟩] [f1, f2] =
      .ok ⟨[(p, [(d, i2)])]⟩ := by
  simp [output, outputLoop, urlsGet, h1, h2, hd1, hd2, hk, insertImage,
    odGet, odInsert]

/-- Witness for C8 at concrete inputs. -/
theorem C8_last_write_wins_witness :
    output (fun f => if f = "a.jpg" then Except.ok 1 else Except.ok 2)
      [⟨"k1", "P1", "imgA", "u1"⟩, ⟨"k2", "P1", "imgA", "u2"⟩]
      ["a.jpg", "b.jpg"] = .ok ⟨[("P1", [("imgA", 2)])]⟩ :=
  C8_last_write_wins _ "k1" "k2" "P1" "imgA" "u1" "u2" "a.jpg" "b.jpg"
    1 2 (by decide) (by decide) (by decide) (by decide) (by decide)

/-! ### Lemmas for the length-mismatch analysis (C2) -/

theorem zip_take_take {A B : Type} :
    ∀ (l1 : List A) (l2 : List B),
      List.zip (l1.take l2.length) (l2.take l1.length) = List.zip l1 l2
  | [], _ => by simp
  | _ :: _, [] => by simp
  | a :: l1, b :: l2 => by
    simp [List.zip_cons_cons, zip_take_take l1 l2]

theorem map_snd_zip_eq_take {A B : Type} :
    ∀ (l1 : List A) (l2 : List B),
      (List.zip l1 l2).map Prod.snd = l2.take l1.length
  | [], _ => by simp
  | _ :: _, [] => by simp
  | a :: l1, b :: l2 => by
    simp [List.zip_cons_cons, map_snd_zip_eq_take l1 l2]

theorem urlsGet_take :
    ∀ (file_urls : List ResolvedEntry) (n : Nat) (k : String),
      k ∈ (file_urls.take n).map ResolvedEntry.key →
      urlsGet (file_urls.take n) k = urlsGet file_urls k
  | [], _, _ => by simp
  | _ :: _, 0, _ => by simp
  | e :: tl, n + 1, k => by
    intro hk
    by_cases h : e.key = k
    · simp [urlsGet, h]
    · have hk' : k ∈ (tl.take n).map ResolvedEntry.key := by
        rcases List.mem_map.mp hk with ⟨e', he', hke⟩
        rcases List.mem_cons.mp he' with rfl | he''
        · exact absurd hke h
        · exact List.mem_map.mpr ⟨e', he'', hke⟩
      simp [urlsGet, h, urlsGet_take tl n k hk']

theorem outputLoop_congr_lookup {α : Type} (decode : String → Except String α)
    (urls1 urls2 : List ResolvedEntry) :
    ∀ (zipped : List (String × String)) (data_dict : GroupedResult α),
      (∀ pr ∈ zipped, urlsGet urls1 pr.2 = urlsGet urls2 pr.2) →
      outputLoop decode urls1 zipped data_dict =
        outputLoop decode urls2 zipped data_dict
  | [], _, _ => rfl
  | (file, key) :: rest, data_dict, h => by
    have hhead := h (file, key) (List.mem_cons_self _ _)
    have htail := fun pr hpr => h pr (List.mem_cons_of_mem _ hpr)
    by_cases hf : isDecodableImage file
    · simp only [outputLoop, hf, if_pos, hhead]
      cases urlsGet urls2 key with
      | none => rfl
      | some entry =>
        cases decode file with
        | error e => rfl
        | ok image =>
          exact outputLoop_congr_lookup decode urls1 urls2 rest _ htail
    · simp only [outputLoop, hf]
      exact outputLoop_congr_lookup decode urls1 urls2 rest _ htail

/-! ### Claim theorems: length mismatch (C2) -/

/-- C2 counterexample: with two resolved entries but a single returned local
path, `output` raises no error and returns a partial grouped result built
from the first pair only. -/
theorem C2_mismatch_cex :
    (["a.jpg"] : List String).length ≠
        ([⟨"k1", "P1", "imgA", "u1"⟩, ⟨"k2", "P1", "imgB", "u2"⟩] :
          List ResolvedEntry).length ∧
    output (fun f => Except.ok f)
      [⟨"k1", "P1", "imgA", "u1"⟩, ⟨"k2", "P1", "imgB", "u2"⟩]
      ["a.jpg"] = .ok ⟨[("P1", [("imgA", "a.jpg")])]⟩ := by decide

/-- C2 (amended): `output` never fails on a length mismatch: the zip
truncates both sequences to the shorter length, so `output` silently
assembles the partial grouped result of the first `min` pairs — it behaves
exactly as if each input were truncated to the other's length. -/
theorem C2_zip_truncation {α : Type} (decode : String → Except String α)
    (file_urls : List ResolvedEntry) (downloaded_files : List String) :
    output decode file_urls downloaded_files =
      output decode (file_urls.take downloaded_files.length)
        (downloaded_files.take file_urls.length) := by
  unfold output
  have hkeys : (file_urls.take downloaded_files.length).map
      ResolvedEntry.key = (file_urls.map ResolvedEntry.key).take
        downloaded_files.length := by
    simp
  have hzip : List.zip (downloaded_files.take file_urls.length)
      ((file_urls.take downloaded_files.length).map ResolvedEntry.key) =
      List.zip downloaded_files (file_urls.map ResolvedEntry.key) := by
    rw [hkeys]
    have := zip_take_take downloaded_files
      (file_urls.map ResolvedEntry.key)
    simpa using this
  rw [hzip]
  have hcongr : outputLoop decode file_urls
      (List.zip downloaded_files (file_urls.map ResolvedEntry.key)) [] =
      outputLoop decode (file_urls.take downloaded_files.length)
        (List.zip downloaded_files (file_urls.map ResolvedEntry.key)) [] := by
    apply outputLoop_congr_lookup
    intro pr hpr
    have hsnd : pr.2 ∈ (List.zip downloaded_files
        (file_urls.map ResolvedEntry.key)).map Prod.snd :=
      List.mem_map.mpr ⟨pr, hpr, rfl⟩
    rw [map_snd_zip_eq_take] at hsnd
    rw [← hkeys] at hsnd
    exact (urlsGet_take file_urls downloaded_files.length pr.2 hsnd).symm
  rw [hcongr]

/-! ### Lemmas for the decode-failure analysis (C3) -/

theorem outputLoop_error_of_decode_error {α : Type}
    (decode : String → Except String α) (file_urls : List ResolvedEntry) :
    ∀ (zipped : List (String × String)) (data_dict : GroupedResult α),
      (∃ pr ∈ zipped, isDecodableImage pr.1 = true ∧
        ∃ msg, decode pr.1 = .error msg) →
      ∃ msg, outputLoop decode file_urls zipped data_dict = .error msg
  | [], _, h => absurd h (by simp)
  | (file, key) :: rest, data_dict, h => by
    by_cases hf : isDecodableImage file
    · cases hq : urlsGet file_urls key with
      | none =>
        exact ⟨"TypeError: NoneType is not subscriptable",
          by simp [outputLoop, hf, hq]⟩
      | some entry =>
        cases hd : decode file with
        | error msg => exact ⟨msg, by simp [outputLoop, hf, hq, hd]⟩
        | ok image =>
          have htail : ∃ pr ∈ rest, isDecodableImage pr.1 = true ∧
              ∃ msg, decode pr.1 = .error msg := by
            rcases h with ⟨pr, hpr, hprdec, msg, hprerr⟩
            rcases List.mem_cons.mp hpr with rfl | hprrest
            · rw [hd] at hprerr
              cases hprerr
            · exact ⟨pr, hprrest, hprdec, msg, hprerr⟩
          rcases outputLoop_error_of_decode_error decode file_urls rest
            (insertImage data_dict entry.product entry.description image)
            htail with ⟨msg, hmsg⟩
          exact ⟨msg, by simp [outputLoop, hf, hq, hd, hmsg]⟩
    · have htail : ∃ pr ∈ rest, isDecodableImage pr.1 = true ∧
          ∃ msg, decode pr.1 = .error msg := by
        rcases h with ⟨pr, hpr, hprdec, msg, hprerr⟩
        rcases List.mem_cons.mp hpr with rfl | hprrest
        · exact absurd hprdec hf
        · exact ⟨pr, hprrest, hprdec, msg, hprerr⟩
      rcases outputLoop_error_of_decode_error decode file_urls rest
        data_dict htail with ⟨msg, hmsg⟩
      exact ⟨msg, by simp [outputLoop, hf, hmsg]⟩

/-! ### Claim theorems: decode failure (C3) -/

/-- C3 counterexample: the first of two entries fails to decode; `output`
propagates the decode error and returns no grouped result at all — the
remaining entry is not processed, contrary to the claim. -/
theorem C3_remaining_not_processed_cex :
    output (fun f => if f = "a.jpg" then Except.error "decode failed"
        else Except.ok (0 : Nat))
      [⟨"k1", "P1", "imgA", "u1"⟩, ⟨"k2", "P1", "imgB", "u2"⟩]
      ["a.jpg", "b.jpg"] = .error "decode failed" := by decide

/-- C3 (amended): a decode failure of an eligible pair is surfaced to the
caller — `output` returns that error — but it aborts the whole call:
no remaining entry is processed and no grouped result is returned. -/
theorem C3_decode_failure_aborts {α : Type}
    (decode : String → Except String α) (file_urls : List ResolvedEntry)
    (downloaded_files : List String)
    (h : ∃ pr ∈ List.zip downloaded_files
          (file_urls.map ResolvedEntry.key),
        isDecodableImage pr.1 = true ∧ ∃ msg, decode pr.1 = .error msg) :
    ∃ msg, output decode file_urls downloaded_files = .error msg := by
  rcases outputLoop_error_of_decode_error decode file_urls
    (List.zip downloaded_files (file_urls.map ResolvedEntry.key)) [] h
    with ⟨msg, hmsg⟩
  exact ⟨msg, by simp [output, hmsg]⟩

/-- Witness for C3 (amended) at concrete inputs. -/
theorem C3_decode_failure_aborts_witness :
    ∃ msg, output (fun f => if f = "a.jpg" then Except.error "decode failed"
        else Except.ok (0 : Nat))
      [⟨"k1", "P1", "imgA", "u1"⟩, ⟨"k2", "P1", "imgB", "u2"⟩]
      ["a.jpg", "b.jpg"] = .error msg :=
  C3_decode_failure_aborts _ _ _
    ⟨("a.jpg", "k1"), by decide, by decide, "decode failed", by decide⟩

/-! ### Lemmas for the grouping-order analysis (C1) -/

theorem urlsGet_key_of_mem :
    ∀ (file_urls : List ResolvedEntry) (e : ResolvedEntry),
      e ∈ file_urls → (file_urls.map ResolvedEntry.key).Nodup →
      urlsGet file_urls e.key = some e
  | [], e, hmem, _ => absurd hmem (List.not_mem_nil e)
  | e0 :: tl, e, hmem, hnd => by
    have hnd' := List.nodup_cons.mp hnd
    rcases List.mem_cons.mp hmem with rfl | htl
    · simp [urlsGet]
    · by_cases h : e0.key = e.key
      · exfalso
        apply hnd'.1
        rw [h]
        exact List.mem_map.mpr ⟨e, htl, rfl⟩
      · simp [urlsGet, h, urlsGet_key_of_mem tl e htl hnd'.2]

theorem outputLoop_ok_of_all_ok {α : Type}
    (decode : String → Except String α) (imgOf : String → α)
    (file_urls : List ResolvedEntry) :
    ∀ (ps : List (String × ResolvedEntry)) (data_dict : GroupedResult α),
      (∀ pr ∈ ps, urlsGet file_urls pr.2.key = some pr.2) →
      (∀ pr ∈ ps, isDecodableImage pr.1 = true) →
      (∀ pr ∈ ps, decode pr.1 = .ok (imgOf pr.1)) →
      outputLoop decode file_urls (ps.map fun pr => (pr.1, pr.2.key))
          data_dict =
        .ok (ps.foldl (fun g pr =>
          insertImage g pr.2.product pr.2.description (imgOf pr.1))
          data_dict)
  | [], _, _, _, _ => rfl
  | (f, e) :: rest, data_dict, hlk, hdec, hok => by
    have h1 := hlk (f, e) (List.mem_cons_self _ _)
    have h2 := hdec (f, e) (List.mem_cons_self _ _)
    have h3 := hok (f, e) (List.mem_cons_self _ _)
    simp only [List.map_cons, List.foldl_cons, outputLoop, h1, h2, h3,
      if_true]
    exact outputLoop_ok_of_all_ok decode imgOf file_urls rest _
      (fun pr hpr => hlk pr (List.mem_cons_of_mem _ hpr))
      (fun pr hpr => hdec pr (List.mem_cons_of_mem _ hpr))
      (fun pr hpr => hok pr (List.mem_cons_of_mem _ hpr))

theorem foldl_insertImage_keys {α τ : Type} (prodOf descOf : τ → String)
    (imgOf : τ → α) :
    ∀ (ts : List τ) (g : GroupedResult α),
      ((ts.foldl (fun g t =>
          insertImage g (prodOf t) (descOf t) (imgOf t)) g).map Prod.fst) =
        (ts.map prodOf).foldl addFirst (g.map Prod.fst)
  | [], g => rfl
  | t :: rest, g => by
    simp only [List.foldl_cons, List.map_cons]
    rw [foldl_insertImage_keys prodOf descOf imgOf rest, insertImage_keys]

theorem foldl_insertImage_inner_keys {α τ : Type} (p : String)
    (prodOf descOf : τ → String) (imgOf : τ → α) :
    ∀ (ts : List τ) (g : GroupedResult α),
      (((odGet (ts.foldl (fun g t =>
            insertImage g (prodOf t) (descOf t) (imgOf t)) g) p).getD
          []).map Prod.fst) =
        ((ts.filter fun t => prodOf t == p).map descOf).foldl addFirst
          (((odGet g p).getD []).map Prod.fst)
  | [], g => rfl
  | t :: rest, g => by
    simp only [List.foldl_cons]
    rw [foldl_insertImage_inner_keys p prodOf descOf imgOf rest]
    by_cases hq : prodOf t = p
    · rw [odGet_insertImage, if_pos hq, Option.getD_some, odInsert_keys,
        List.filter_cons_of_pos (by simp [hq]), List.map_cons,
        List.foldl_cons, hq]
    · rw [odGet_insertImage, if_neg hq,
        List.filter_cons_of_neg (by simp [hq])]

/-! ### Claim theorem: grouping correctness and key order (C1) -/

/-- C1: first, the concrete three-entry scenario of the claim: resolved
entries ("P1","imgA"), ("P1","imgB"), ("P2","imgA") with three decodable
paths group into exactly {"P1": {"imgA": i1, "imgB": i2}, "P2":
{"imgA": i3}} in that key order; second, in general (all paths decodable,
resource keys unique, sequences of equal length) the grouped result's
product keys are the first-seen order of the entries' product identifiers
and, within each product, the description keys are the first-seen order of
that product's descriptions. -/
theorem C1_grouping_order :
    (∀ (α : Type) (decode : String → Except String α) (i1 i2 i3 : α)
       (u1 u2 u3 : String),
       decode "f1.jpg" = .ok i1 → decode "f2.jpg" = .ok i2 →
       decode "f3.jpg" = .ok i3 →
       output decode
         [⟨"k1", "P1", "imgA", u1⟩, ⟨"k2", "P1", "imgB", u2⟩,
          ⟨"k3", "P2", "imgA", u3⟩]
         ["f1.jpg", "f2.jpg", "f3.jpg"] =
         .ok ⟨[("P1", [("imgA", i1), ("imgB", i2)]),
               ("P2", [("imgA", i3)])]⟩) ∧
    (∀ (α : Type) (decode : String → Except String α) (imgOf : String → α)
       (file_urls : List ResolvedEntry) (downloaded_files : List String),
       downloaded_files.length = file_urls.length →
       (file_urls.map ResolvedEntry.key).Nodup →
       (∀ f ∈ downloaded_files, isDecodableImage f = true) →
       (∀ f ∈ downloaded_files, decode f = .ok (imgOf f)) →
       ∃ w, output decode file_urls downloaded_files = .ok w ∧
         w.obj_wrap.map Prod.fst =
           firstSeen (file_urls.map ResolvedEntry.product) ∧
         ∀ p, ((odGet w.obj_wrap p).getD []).map Prod.fst =
           firstSeen ((file_urls.filter fun e => e.product == p).map
             ResolvedEntry.description)) := by
  constructor
  · intro α decode i1 i2 i3 u1 u2 u3 hd1 hd2 hd3
    have hs1 : isDecodableImage "f1.jpg" = true := by decide
    have hs2 : isDecodableImage "f2.jpg" = true := by decide
    have hs3 : isDecodableImage "f3.jpg" = true := by decide
    simp [output, outputLoop, urlsGet, insertImage, odGet, odInsert,
      hs1, hs2, hs3, hd1, hd2, hd3]
  · intro α decode imgOf file_urls downloaded_files hlen hnd hsuf hdec
    have hzipmap : List.zip downloaded_files
        (file_urls.map ResolvedEntry.key) =
        (List.zip downloaded_files file_urls).map
          (fun pr => (pr.1, pr.2.key)) := by
      rw [List.zip_map_right]
      rfl
    have hsnd : (List.zip downloaded_files file_urls).map Prod.snd =
        file_urls := by
      rw [map_snd_zip_eq_take, hlen, List.take_length]
    have hmem : ∀ pr ∈ List.zip downloaded_files file_urls,
        pr.1 ∈ downloaded_files ∧ pr.2 ∈ file_urls := by
      intro pr hpr
      obtain ⟨f, e⟩ := pr
      exact List.of_mem_zip hpr
    have hout := outputLoop_ok_of_all_ok decode imgOf file_urls
      (List.zip downloaded_files file_urls) []
      (fun pr hpr => urlsGet_key_of_mem file_urls pr.2 (hmem pr hpr).2 hnd)
      (fun pr hpr => hsuf pr.1 (hmem pr hpr).1)
      (fun pr hpr => hdec pr.1 (hmem pr hpr).1)
    have hprod : (List.zip downloaded_files file_urls).map
        (fun pr => pr.2.product) =
        file_urls.map ResolvedEntry.product := by
      conv_rhs => rw [← hsnd]
      rw [List.map_map]
      rfl
    refine ⟨⟨(List.zip downloaded_files file_urls).foldl (fun g pr =>
      insertImage g pr.2.product pr.2.description (imgOf pr.1)) []⟩,
      ?_, ?_, ?_⟩
    · simp only [output, hzipmap, hout]
    · have hkeys := foldl_insertImage_keys
        (fun pr : String × ResolvedEntry => pr.2.product)
        (fun pr => pr.2.description) (fun pr => imgOf pr.1)
        (List.zip downloaded_files file_urls) []
      refine hkeys.trans ?_
      rw [hprod]
      rfl
    · intro p
      have hinner := foldl_insertImage_inner_keys p
        (fun pr : String × ResolvedEntry => pr.2.product)
        (fun pr => pr.2.description) (fun pr => imgOf pr.1)
        (List.zip downloaded_files file_urls) []
      refine hinner.trans ?_
      have hdesc : ((List.zip downloaded_files file_urls).filter
          (fun pr => pr.2.product == p)).map (fun pr => pr.2.description) =
          ((file_urls.filter fun e => e.product == p).map
            ResolvedEntry.description) := by
        conv_rhs => rw [← hsnd]
        rw [List.filter_map, List.map_map]
        rfl
      rw [hdesc]
      rfl

/-- Witness for C1 at fully concrete inputs (both conjuncts). -/
theorem C1_grouping_order_witness :
    output (fun f => Except.ok f)
      [⟨"k1", "P1", "imgA", "u1"⟩, ⟨"k2", "P1", "imgB", "u2"⟩,
       ⟨"k3", "P2", "imgA", "u3"⟩]
      ["f1.jpg", "f2.jpg", "f3.jpg"] =
      .ok ⟨[("P1", [("imgA", "f1.jpg"), ("imgB", "f2.jpg")]),
            ("P2", [("imgA", "f3.jpg")])]⟩ ∧
    (∃ w, output (fun f => Except.ok f)
        [⟨"k1", "P1", "imgA", "u1"⟩, ⟨"k2", "P1", "imgB", "u2"⟩,
         ⟨"k3", "P2", "imgA", "u3"⟩]
        ["f1.jpg", "f2.jpg", "f3.jpg"] = .ok w ∧
      w.obj_wrap.map Prod.fst =
        firstSeen (([⟨"k1", "P1", "imgA", "u1"⟩, ⟨"k2", "P1", "imgB", "u2"⟩,
          ⟨"k3", "P2", "imgA", "u3"⟩] : List ResolvedEntry).map
            ResolvedEntry.product) ∧
      ∀ p, ((odGet w.obj_wrap p).getD []).map Prod.fst =
        firstSeen ((([⟨"k1", "P1", "imgA", "u1"⟩,
          ⟨"k2", "P1", "imgB", "u2"⟩, ⟨"k3", "P2", "imgA", "u3"⟩] :
            List ResolvedEntry).filter fun e => e.product == p).map
          ResolvedEntry.description)) :=
  ⟨C1_grouping_order.1 String (fun f => Except.ok f)
    "f1.jpg" "f2.jpg" "f3.jpg" "u1" "u2" "u3" rfl rfl rfl,
   C1_grouping_order.2 String (fun f => Except.ok f) (fun f => f)
    [⟨"k1", "P1", "imgA", "u1"⟩, ⟨"k2", "P1", "imgB", "u2"⟩,
     ⟨"k3", "P2", "imgA", "u3"⟩]
    ["f1.jpg", "f2.jpg", "f3.jpg"] rfl (by decide) (by decide)
    (fun f _ => rfl)⟩
